import Mathlib

/-!
Shallow embedding of the Groupie-tracker core pipeline (src/main.go and
src/unnamed/part_000): the fan-out fetch phase of `gatherData`, its combine
loop (the Join Engine), the id-based lookup in `singleArtistHandler`, and the
substring search of `searchHandler`.  Machine integers of the Go source are
modelled as `Int` (no arithmetic in the claims can overflow a 64-bit int),
Go strings as Lean `String` over their character lists, Go maps
`map[string][]string` as association lists, and a runtime panic
(out-of-bounds slice indexing) as `none` of an `Option`-valued function.
-/

namespace GroupieTracker

/-- `Artist` struct of the source: one element of the artists sub-resource. -/
structure Artist where
  id : Int
  image : String
  name : String
  members : List String
  creationDate : Int
  firstAlbum : String
  locations : String
  concertDates : String
  relations : String
deriving Repr, DecidableEq

/-- One element of `Locations.Index` in the source. -/
structure LocationsEntry where
  id : Int
  locations : List String
  dates : String
deriving Repr, DecidableEq

/-- One element of `Dates.Index` in the source. -/
structure DatesEntry where
  id : Int
  dates : List String
deriving Repr, DecidableEq

/-- One element of `Relation.Index` in the source; the Go map
`map[string][]string` is modelled as an association list. -/
structure RelationEntry where
  id : Int
  datesLocations : List (String × List String)
deriving Repr, DecidableEq

/-- One element of the global `artistData` slice: the source stores a
`map[string]interface{}` with the nine fixed keys written by the combine
loop of `gatherData`; we model it as a structure with those nine fields. -/
structure Composite where
  id : Int
  name : String
  image : String
  members : List String
  creationDate : Int
  firstAlbum : String
  locations : List String
  dates : List String
  relation : List (String × List String)
deriving Repr, DecidableEq

/-- The map literal appended by one iteration of the combine loop of
`gatherData` (keys Id, Name, Image, Members, CreationDate, FirstAlbum,
Locations, Dates, Relation). -/
def mkRecord (a : Artist) (l : LocationsEntry) (d : DatesEntry)
    (r : RelationEntry) : Composite :=
  { id := a.id
    name := a.name
    image := a.image
    members := a.members
    creationDate := a.creationDate
    firstAlbum := a.firstAlbum
    locations := l.locations
    dates := d.dates
    relation := r.datesLocations }

/-- The combine loop of `gatherData`:
`for x := 0; x < len(artists); x++` builds one record per artist, indexing
`locations.Index[x]`, `dates.Index[x]`, `relation.Index[x]` blindly.  The
loop is driven by the artists list only; when a position exists in the
artists list but is out of bounds in one of the other three collections,
the Go program panics, which we model as `none`. -/
def combineAux : List Artist → List LocationsEntry → List DatesEntry →
    List RelationEntry → Option (List Composite)
  | [], _, _, _ => some []
  | a :: as, l :: ls, d :: ds, r :: rs =>
      (combineAux as ls ds rs).map (fun rest => mkRecord a l d r :: rest)
  | _ :: _, _, _, _ => none

/-- The four sub-resources fetched concurrently by `gatherData`. -/
inductive Source
  | artists
  | locations
  | dates
  | relations
deriving Repr, DecidableEq

/-- Outcome of the four concurrent `fetchData` calls: each goroutine leaves
its destination value (the zero value when the fetch failed) and possibly an
error.  Errors are modelled as strings. -/
structure Fetched where
  artistsRes : List Artist × Option String
  locationsRes : List LocationsEntry × Option String
  datesRes : List DatesEntry × Option String
  relationsRes : List RelationEntry × Option String

/-- The error (if any) the goroutine of a given source appends to `errs`. -/
def errOf (f : Fetched) : Source → Option String
  | Source.artists => f.artistsRes.2
  | Source.locations => f.locationsRes.2
  | Source.dates => f.datesRes.2
  | Source.relations => f.relationsRes.2

/-- `gatherData` after the root-manifest fetch has succeeded (every claim is
about the fan-out and combine stage).  `sched` is the completion order of
the four goroutines; `errs` collects, in completion order, the errors of
the goroutines that failed (each failed goroutine appends its error).  If
`errs` is non-empty the function returns `errs[0]` and leaves the store
untouched; otherwise it runs the combine loop and appends its output to the
global `artistData` (`store`).  `none` models the panic of an out-of-bounds
index inside the combine loop. -/
def gatherData (f : Fetched) (sched : List Source) (store : List Composite) :
    Option (List Composite × Option String) :=
  match sched.filterMap (errOf f) with
  | e :: _ => some (store, some e)
  | [] =>
      (combineAux f.artistsRes.1 f.locationsRes.1 f.datesRes.1
        f.relationsRes.1).map (fun recs => (store ++ recs, none))

/-- The id validation and indexing of `singleArtistHandler`: reject
`artistID < 1 || artistID > len(artistData)` with an invalid-id response
(`none`), otherwise serve `artistData[artistID-1]`. -/
def lookupByID (store : List Composite) (id : Int) : Option Composite :=
  if id < 1 ∨ id > (store.length : Int) then none
  else store[(id - 1).toNat]?

/-- ASCII case folding of one character, the fragment of Go's
`strings.ToLower` exercised by the data of the claims. -/
def charLower (c : Char) : Char :=
  if 'A' ≤ c ∧ c ≤ 'Z' then Char.ofNat (c.toNat + 32) else c

/-- `strings.ToLower` on a whole string. -/
def goToLower (s : String) : String :=
  String.mk (s.toList.map charLower)

/-- `needle` occurs at the very start of `hay`. -/
def leadsWith : List Char → List Char → Bool
  | [], _ => true
  | _ :: _, [] => false
  | a :: as, b :: bs => a == b && leadsWith as bs

/-- Substring occurrence over character lists: `needle` occurs at the start
of some suffix of `hay`. -/
def containsSub (hay needle : List Char) : Bool :=
  match hay with
  | [] => leadsWith needle []
  | _ :: t => leadsWith needle hay || containsSub t needle

/-- `strings.Contains(s, sub)` of the source. -/
def goContains (s sub : String) : Bool :=
  containsSub s.toList sub.toList

/-- `strconv.Itoa` applied to the creation date. -/
def intToStr (i : Int) : String := toString i

/-- The `SearchResult` struct of the source. -/
structure SearchResult where
  type : String
  value : String
  id : Int
deriving Repr, DecidableEq

/-- One iteration of the `searchHandler` loop: the field checks performed
for one record, in source order (name, each member, each location, first
album, creation date), each appending one `SearchResult` on a match. -/
def searchStep (query : String) (results : List SearchResult)
    (artist : Composite) : List SearchResult :=
  let r1 := if goContains (goToLower artist.name) query then
      results ++ [⟨"artist", artist.name, artist.id⟩] else results
  let r2 := artist.members.foldl (fun res m =>
      if goContains (goToLower m) query then
        res ++ [⟨"member", m, artist.id⟩] else res) r1
  let r3 := artist.locations.foldl (fun res l =>
      if goContains (goToLower l) query then
        res ++ [⟨"location", l, artist.id⟩] else res) r2
  let r4 := if goContains (goToLower artist.firstAlbum) query then
      r3 ++ [⟨"first album", artist.firstAlbum, artist.id⟩] else r3
  let r5 := if goContains (intToStr artist.creationDate) query then
      r4 ++ [⟨"creation date", intToStr artist.creationDate, artist.id⟩]
    else r4
  r5

/-- Body of `searchHandler` after the query has been lowercased: the
imperative loop over `artistData`, starting from an empty result list. -/
def searchWithQuery (store : List Composite) (query : String) :
    List SearchResult :=
  store.foldl (searchStep query) []

/-- `searchHandler`: `query := strings.ToLower(r.URL.Query().Get("q"))`
followed by the scan. -/
def searchHandler (store : List Composite) (rawQ : String) :
    List SearchResult :=
  searchWithQuery store (goToLower rawQ)

/-- Declarative per-record form of the scan body: the hits one record
contributes, concatenated in the fixed field-check order of the source. -/
def recordHits (query : String) (a : Composite) : List SearchResult :=
  (if goContains (goToLower a.name) query then
      [⟨"artist", a.name, a.id⟩] else [])
  ++ (a.members.map (fun m =>
        if goContains (goToLower m) query then
          ([⟨"member", m, a.id⟩] : List SearchResult) else [])).flatten
  ++ (a.locations.map (fun l =>
        if goContains (goToLower l) query then
          ([⟨"location", l, a.id⟩] : List SearchResult) else [])).flatten
  ++ (if goContains (goToLower a.firstAlbum) query then
        [⟨"first album", a.firstAlbum, a.id⟩] else [])
  ++ (if goContains (intToStr a.creationDate) query then
        [⟨"creation date", intToStr a.creationDate, a.id⟩] else [])

/-!
Model of the unsynchronized `errs = append(errs, err)` performed by the
failing goroutines (lines 99-128 of src/main.go).  A slice append compiled
to shared memory is a read of the slice followed by a write of the extended
slice; with no mutex the two steps of different goroutines may interleave.
We model two failing goroutines (`false` and `true`), each taking two
atomic steps: its first scheduled step reads `errs` and builds the extended
list in a local, its second writes that local back to `errs`.
-/

/-- Shared and per-goroutine state of the two racing appends. -/
structure RaceState where
  errs : List String
  loc0 : List String
  loc1 : List String
  cnt0 : Nat
  cnt1 : Nat
deriving Repr, DecidableEq

/-- One scheduler step: run the next step of goroutine `g`. -/
def raceStep (e0 e1 : String) (st : RaceState) (g : Bool) : RaceState :=
  if g then
    match st.cnt1 with
    | 0 => { st with loc1 := st.errs ++ [e1], cnt1 := 1 }
    | _ => { st with errs := st.loc1, cnt1 := st.cnt1 + 1 }
  else
    match st.cnt0 with
    | 0 => { st with loc0 := st.errs ++ [e0], cnt0 := 1 }
    | _ => { st with errs := st.loc0, cnt0 := st.cnt0 + 1 }

/-- The contents of `errs` after running a schedule of the two goroutines'
steps from the empty list. -/
def runRace (e0 e1 : String) (sched : List Bool) : List String :=
  (sched.foldl (raceStep e0 e1) ⟨[], [], [], 0, 0⟩).errs

/-! Concrete data for witnesses and counterexamples, taken from the example
scenario of the spec (one record: Queen). -/

/-- The Queen artist of the spec's example scenario. -/
def queenArtist : Artist :=
  { id := 1
    image := ""
    name := "Queen"
    members := ["Freddie Mercury", "Brian May"]
    creationDate := 1970
    firstAlbum := "1973-07-13"
    locations := ""
    concertDates := ""
    relations := "" }

/-- Location entry aligned with `queenArtist`. -/
def queenLoc : LocationsEntry :=
  { id := 1, locations := ["london", "tokyo"], dates := "" }

/-- Dates entry aligned with `queenArtist`. -/
def queenDates : DatesEntry := { id := 1, dates := [] }

/-- Relation entry aligned with `queenArtist`. -/
def queenRel : RelationEntry := { id := 1, datesLocations := [] }

/-- The composite record the combine loop builds from the Queen row. -/
def queen : Composite := mkRecord queenArtist queenLoc queenDates queenRel

/-- Fetch outcome where all four fetches succeed but the locations
collection is empty while the artists collection has one element. -/
def fMisaligned : Fetched :=
  { artistsRes := ([queenArtist], none)
    locationsRes := ([], none)
    datesRes := ([queenDates], none)
    relationsRes := ([queenRel], none) }

/-- Fetch outcome where the locations and dates fetches both fail. -/
def fTwoFail : Fetched :=
  { artistsRes := ([], none)
    locationsRes := ([], some "fetch locations failed")
    datesRes := ([], some "fetch dates failed")
    relationsRes := ([], none) }

/-- Fetch outcome where only the dates fetch fails. -/
def fDatesFail : Fetched :=
  { artistsRes := ([queenArtist], none)
    locationsRes := ([queenLoc], none)
    datesRes := ([], some "fetch dates failed")
    relationsRes := ([queenRel], none) }

/-- Fetch outcome where all four fetches succeed with the Queen row. -/
def fQueenOk : Fetched :=
  { artistsRes := ([queenArtist], none)
    locationsRes := ([queenLoc], none)
    datesRes := ([queenDates], none)
    relationsRes := ([queenRel], none) }

/-! ## Helper lemmas -/

/-- Success of the combine loop on aligned inputs, with positional
characterisation of the output. -/
lemma combineAux_ok : ∀ (as : List Artist) (ls : List LocationsEntry)
    (ds : List DatesEntry) (rs : List RelationEntry),
    ls.length = as.length → ds.length = as.length → rs.length = as.length →
    ∃ out, combineAux as ls ds rs = some out ∧ out.length = as.length ∧
      ∀ (i : Nat) a l d r, as[i]? = some a → ls[i]? = some l →
        ds[i]? = some d → rs[i]? = some r → out[i]? = some (mkRecord a l d r)
  | [], [], [], [], _, _, _ => by
      refine ⟨[], rfl, rfl, ?_⟩
      intro i a l d r ha _ _ _
      simp at ha
  | a :: as, l :: ls, d :: ds, r :: rs, h1, h2, h3 => by
      simp only [List.length_cons, Nat.succ.injEq] at h1 h2 h3
      obtain ⟨out, hout, hlen, hidx⟩ := combineAux_ok as ls ds rs h1 h2 h3
      refine ⟨mkRecord a l d r :: out, ?_, by simp [hlen], ?_⟩
      · simp [combineAux, hout]
      · intro i a' l' d' r' ha hl hd hr
        match i with
        | 0 =>
            simp at ha hl hd hr
            simp [ha, hl, hd, hr]
        | i + 1 =>
            simp only [List.getElem?_cons_succ] at ha hl hd hr ⊢
            exact hidx i a' l' d' r' ha hl hd hr

/-- The member-field inner fold of `searchStep`, restated as the
accumulator followed by the hits of the matching members. -/
lemma memberFold_eq (q : String) (aid : Int) :
    ∀ (ms : List String) (acc : List SearchResult),
    ms.foldl (fun res m => if goContains (goToLower m) q then
        res ++ [⟨"member", m, aid⟩] else res) acc
      = acc ++ (ms.map (fun m => if goContains (goToLower m) q then
          ([⟨"member", m, aid⟩] : List SearchResult) else [])).flatten
  | [], acc => by simp
  | m :: ms, acc => by
      by_cases h : goContains (goToLower m) q <;>
        simp [h, memberFold_eq q aid ms]

/-- The location-field inner fold of `searchStep`, restated likewise. -/
lemma locationFold_eq (q : String) (aid : Int) :
    ∀ (ls : List String) (acc : List SearchResult),
    ls.foldl (fun res l => if goContains (goToLower l) q then
        res ++ [⟨"location", l, aid⟩] else res) acc
      = acc ++ (ls.map (fun l => if goContains (goToLower l) q then
          ([⟨"location", l, aid⟩] : List SearchResult) else [])).flatten
  | [], acc => by simp
  | l :: ls, acc => by
      by_cases h : goContains (goToLower l) q <;>
        simp [h, locationFold_eq q aid ls]

/-- One loop iteration appends exactly the record's hits, in field order. -/
lemma searchStep_eq (q : String) (res : List SearchResult) (a : Composite) :
    searchStep q res a = res ++ recordHits q a := by
  simp only [searchStep, recordHits, memberFold_eq, locationFold_eq]
  by_cases h1 : goContains (goToLower a.name) q <;>
    by_cases h4 : goContains (goToLower a.firstAlbum) q <;>
      by_cases h5 : goContains (intToStr a.creationDate) q <;>
        simp [h1, h4, h5]

/-- The whole scan is the concatenation, in store order, of the per-record
hit lists. -/
lemma searchWithQuery_eq (store : List Composite) (q : String) :
    searchWithQuery store q = (store.map (recordHits q)).flatten := by
  suffices h : ∀ acc, store.foldl (searchStep q) acc
      = acc ++ (store.map (recordHits q)).flatten by
    simpa [searchWithQuery] using h []
  induction store with
  | nil => intro acc; simp
  | cons a t ih => intro acc; simp [searchStep_eq, ih]

/-- The empty needle occurs in every haystack. -/
lemma containsSub_empty : ∀ hay, containsSub hay [] = true
  | [] => rfl
  | _ :: _ => by simp [containsSub, leadsWith]

/-- `strings.Contains(s, "")` is true for every `s`. -/
lemma goContains_empty (s : String) : goContains s "" = true := by
  simp [goContains, containsSub_empty]

/-- Length of a flattened list of singletons. -/
lemma flatten_singletons_length {α β : Type} (g : α → β) :
    ∀ xs : List α, ((xs.map (fun x => [g x])).flatten).length = xs.length
  | [] => rfl
  | _ :: xs => by simp [flatten_singletons_length g xs]

/-- With the empty query every field of a record matches, giving
`3 + #members + #locations` hits for that record. -/
lemma recordHits_empty_length (a : Composite) :
    (recordHits "" a).length = 3 + a.members.length + a.locations.length := by
  simp only [recordHits, goContains_empty, if_true, List.length_append,
    flatten_singletons_length, List.length_singleton]
  omega

/-! ## Claim theorems -/

/-- C1: the claim says that on misaligned collection lengths the join fails
with a `JoinMisaligned` error naming the lengths and never indexes out of
bounds.  The code has no length check: with one artist and an empty
locations collection (all fetches succeeding), the combine loop indexes
`locations.Index[0]` out of bounds and panics, modelled as `none` — it does
not return any error value. -/
theorem join_misaligned_panics_c1 :
    gatherData fMisaligned
      [Source.artists, Source.locations, Source.dates, Source.relations] []
      = none ∧
    ∀ e : String, gatherData fMisaligned
      [Source.artists, Source.locations, Source.dates, Source.relations] []
      ≠ some ([], some e) := by
  exact ⟨rfl, fun e h => by simp [gatherData, fMisaligned, errOf,
    combineAux] at h⟩

/-- C2: the claim says the error returned when fetches fail is determined
by a fixed source-priority order, independent of goroutine completion
order.  The code returns `errs[0]`, the error of whichever failing
goroutine completed first: with locations and dates both failing, two
completion orders of the same per-source outcomes return different
errors. -/
theorem gather_error_depends_on_order_c2 :
    gatherData fTwoFail
      [Source.artists, Source.locations, Source.dates, Source.relations] []
      = some ([], some "fetch locations failed") ∧
    gatherData fTwoFail
      [Source.artists, Source.dates, Source.locations, Source.relations] []
      = some ([], some "fetch dates failed") ∧
    gatherData fTwoFail
      [Source.artists, Source.locations, Source.dates, Source.relations] []
      ≠ gatherData fTwoFail
      [Source.artists, Source.dates, Source.locations, Source.relations] []
      := by
  refine ⟨rfl, rfl, ?_⟩
  decide

/-- C3: on four collections of equal length, the combine loop succeeds and
produces exactly one composite record per artist, in artist order; the
record at position `i` carries the artist's declared id, name, image,
members, creation year and first-album string together with the locations,
dates and dates-locations map at position `i`. -/
theorem join_aligned_correct_c3 (as : List Artist) (ls : List LocationsEntry)
    (ds : List DatesEntry) (rs : List RelationEntry)
    (h1 : ls.length = as.length) (h2 : ds.length = as.length)
    (h3 : rs.length = as.length) :
    ∃ out, combineAux as ls ds rs = some out ∧ out.length = as.length ∧
      ∀ (i : Nat) a l d r, as[i]? = some a → ls[i]? = some l →
        ds[i]? = some d → rs[i]? = some r →
        out[i]? = some { id := a.id
                         name := a.name
                         image := a.image
                         members := a.members
                         creationDate := a.creationDate
                         firstAlbum := a.firstAlbum
                         locations := l.locations
                         dates := d.dates
                         relation := r.datesLocations } :=
  combineAux_ok as ls ds rs h1 h2 h3

/-- Witness for C3 on the one-row Queen data. -/
theorem join_aligned_correct_c3_witness :
    ∃ out, combineAux [queenArtist] [queenLoc] [queenDates] [queenRel]
        = some out ∧ out.length = [queenArtist].length ∧
      ∀ (i : Nat) a l d r, [queenArtist][i]? = some a →
        [queenLoc][i]? = some l → [queenDates][i]? = some d →
        [queenRel][i]? = some r →
        out[i]? = some { id := a.id
                         name := a.name
                         image := a.image
                         members := a.members
                         creationDate := a.creationDate
                         firstAlbum := a.firstAlbum
                         locations := l.locations
                         dates := d.dates
                         relation := r.datesLocations } :=
  join_aligned_correct_c3 [queenArtist] [queenLoc] [queenDates] [queenRel]
    rfl rfl rfl

/-- C4: if any of the four fetches fails (its goroutine appended an error,
and it appears in the completion order), `gatherData` returns an error
before the combine loop runs, leaving the store exactly as it was — in
particular an empty store stays empty. -/
theorem gather_atomic_on_error_c4 (f : Fetched) (sched : List Source)
    (store : List Composite) (s : Source) (e : String)
    (hs : s ∈ sched) (he : errOf f s = some e) :
    ∃ e', gatherData f sched store = some (store, some e') := by
  have hmem : e ∈ sched.filterMap (errOf f) :=
    List.mem_filterMap.2 ⟨s, hs, he⟩
  match hfm : sched.filterMap (errOf f) with
  | [] => rw [hfm] at hmem; cases hmem
  | h :: t => exact ⟨h, by simp [gatherData, hfm]⟩

/-- Witness for C4: the dates fetch fails and the empty store stays
empty. -/
theorem gather_atomic_on_error_c4_witness :
    ∃ e', gatherData fDatesFail
      [Source.artists, Source.locations, Source.dates, Source.relations] []
      = some ([], some e') :=
  gather_atomic_on_error_c4 fDatesFail
    [Source.artists, Source.locations, Source.dates, Source.relations] []
    Source.dates "fetch dates failed" (by decide) rfl

/-- C5: the lookup rejects exactly the ids outside `1..N` (in particular
`0`, `-1` and `N+1`), and for `1 ≤ id ≤ N` serves exactly the record stored
at position `id - 1`. -/
theorem lookup_range_c5 (store : List Composite) (id : Int) :
    (lookupByID store id = none ↔ id < 1 ∨ id > (store.length : Int)) ∧
    (1 ≤ id → id ≤ (store.length : Int) →
      ∃ rec, store[(id - 1).toNat]? = some rec ∧
        lookupByID store id = some rec) := by
  by_cases hc : id < 1 ∨ id > (store.length : Int)
  · refine ⟨by simp [lookupByID, hc], ?_⟩
    intro h1 h2
    omega
  · have hlt : (id - 1).toNat < store.length := by omega
    have heq : lookupByID store id = some store[(id - 1).toNat] := by
      simp only [lookupByID]
      rw [if_neg hc, List.getElem?_eq_getElem hlt]
    refine ⟨⟨fun hnone => ?_, fun h => absurd h hc⟩, fun _ _ =>
      ⟨store[(id - 1).toNat], List.getElem?_eq_getElem hlt, heq⟩⟩
    rw [heq] at hnone
    cases hnone

/-- Witness for C5 on the one-record store at id 1. -/
theorem lookup_range_c5_witness :
    ∃ rec, [queen][((1 : Int) - 1).toNat]? = some rec ∧
      lookupByID [queen] 1 = some rec :=
  (lookup_range_c5 [queen] 1).2 (by decide) (by decide)

/-- C6: the empty query matches every tested field of every record, so the
number of hits is the sum over all records of
`1 (name) + #members + #locations + 1 (first album) + 1 (creation year)`. -/
theorem empty_query_hit_count_c6 (store : List Composite) :
    (searchHandler store "").length
      = (store.map (fun r => 3 + r.members.length + r.locations.length)).sum
    := by
  have hq : goToLower "" = "" := rfl
  rw [searchHandler, hq, searchWithQuery_eq]
  induction store with
  | nil => rfl
  | cons a t ih => simp [recordHits_empty_length, ih]

/-- C7: the query is lowercased before any comparison, so two queries with
the same lowercase form — in particular two queries differing only in
letter case — produce identical hit sequences. -/
theorem search_case_insensitive_c7 (store : List Composite) (q1 q2 : String)
    (h : goToLower q1 = goToLower q2) :
    searchHandler store q1 = searchHandler store q2 := by
  simp [searchHandler, h]

/-- Witness for C7: `"QUEEN"` and `"queen"` on the Queen store. -/
theorem search_case_insensitive_c7_witness :
    goToLower "QUEEN" = goToLower "queen" ∧
      searchHandler [queen] "QUEEN" = searchHandler [queen] "queen" :=
  ⟨by decide, search_case_insensitive_c7 [queen] "QUEEN" "queen" (by decide)⟩

/-- C8: the scan emits hits in store order and, within a record, in the
fixed field order name, members, locations, first album, creation year,
each hit carrying its field kind, matched value and record id, with no
deduplication or ranking; on the one-record Queen store the query "may"
yields exactly one member hit for "Brian May" with record id 1. -/
theorem search_order_and_example_c8 :
    (∀ (store : List Composite) (q : String),
      searchHandler store q = (store.map (recordHits (goToLower q))).flatten)
    ∧ searchHandler [queen] "may"
        = [{ type := "member", value := "Brian May", id := 1 }] := by
  refine ⟨fun store q => ?_, by decide⟩
  rw [searchHandler, searchWithQuery_eq]

/-- C9: the claim says every append to the shared error list is
synchronized so that no two concurrent writers race and no error is lost.
The source appends to the shared `errs` slice from four goroutines with no
mutex; modelling the append as its read and write steps, the interleaving
read₀, read₁, write₀, write₁ of two failing goroutines loses the first
error entirely, while the non-overlapping schedule keeps both. -/
theorem unsynchronized_append_loses_error_c9 :
    runRace "fetch locations failed" "fetch dates failed"
      [false, true, false, true] = ["fetch dates failed"] ∧
    runRace "fetch locations failed" "fetch dates failed"
      [false, false, true, true]
      = ["fetch locations failed", "fetch dates failed"] :=
  ⟨rfl, rfl⟩

/-- C10: `gatherData` appends the combine-loop output to the existing
`artistData` without clearing it: from a store already holding `M` records,
a second successful run over aligned collections of length `N` leaves
`M + N` records — and not `N`, whenever `M > 0`. -/
theorem gather_not_idempotent_c10 (f : Fetched) (sched : List Source)
    (store : List Composite)
    (hok : ∀ s, errOf f s = none)
    (h1 : f.locationsRes.1.length = f.artistsRes.1.length)
    (h2 : f.datesRes.1.length = f.artistsRes.1.length)
    (h3 : f.relationsRes.1.length = f.artistsRes.1.length) :
    ∃ out, gatherData f sched store = some (store ++ out, none) ∧
      out.length = f.artistsRes.1.length ∧
      (store ++ out).length = store.length + f.artistsRes.1.length ∧
      (0 < store.length →
        (store ++ out).length ≠ f.artistsRes.1.length) := by
  obtain ⟨out, hout, hlen, -⟩ :=
    combineAux_ok f.artistsRes.1 f.locationsRes.1 f.datesRes.1
      f.relationsRes.1 h1 h2 h3
  have hfm : sched.filterMap (errOf f) = [] :=
    List.filterMap_eq_nil_iff.2 (fun s _ => hok s)
  refine ⟨out, by simp [gatherData, hfm, hout], hlen, ?_, ?_⟩
  · simp only [List.length_append]
    omega
  · intro hpos
    simp only [List.length_append]
    omega

/-- Witness for C10: a successful second run over the one-row Queen data on
a store already holding the Queen record leaves two records, not one. -/
theorem gather_not_idempotent_c10_witness :
    ∃ out, gatherData fQueenOk
      [Source.artists, Source.locations, Source.dates, Source.relations]
      [queen] = some ([queen] ++ out, none) ∧
      out.length = fQueenOk.artistsRes.1.length ∧
      ([queen] ++ out).length
        = [queen].length + fQueenOk.artistsRes.1.length ∧
      (0 < [queen].length →
        ([queen] ++ out).length ≠ fQueenOk.artistsRes.1.length) :=
  gather_not_idempotent_c10 fQueenOk
    [Source.artists, Source.locations, Source.dates, Source.relations]
    [queen] (fun s => by cases s <;> rfl) rfl rfl rfl

end GroupieTracker
